import Mathlib

/-!
Shallow embedding of the Mediconnect backend core: the WhatsApp OTP
authentication service (auth.service), the consultation assignment and
lifecycle service (consultation part of whatsapp.service), and the
prescription single-use redemption service (prescription part of
whatsapp.service), together with theorems checking the specification
claims against these definitions.

Conventions of the embedding:
- database tables are lists of rows; SQL SELECT/UPDATE/INSERT statements
  become find?/map/append on those lists;
- instants are natural numbers (milliseconds, as produced by Date.now());
- randomly generated values (OTP codes, UUIDs, QR token bytes) and
  collaborator outcomes (WhatsApp send result) are passed in as parameters;
- bcrypt hashing is modelled by a deterministic tag: compare succeeds
  exactly when the hash was produced from the submitted code;
- operations wrapped in db.transaction return Except (throw rolls back);
  operations issuing independent queries return the post state together
  with the outcome, since a failure after a write does not undo the write;
- a runtime crash from indexing rows[0] of an empty result set is
  modelled by Option.none.
-/

namespace Mediconnect

/-- Application error carrying a message and an HTTP status code,
mirroring AppError from utils/errors. -/
structure AppError where
  message : String
  statusCode : Nat
deriving Repr, DecidableEq

/-- Row of the audit_events table (the payload column is omitted). -/
structure AuditEvent where
  user_id : Option String
  event_type : String
  resource_type : String
  resource_id : String
deriving Repr, DecidableEq

/-- Row of the users table (fields used by the services). -/
structure UserRow where
  id : String
  phone_number : String
  full_name : Option String
  role : String
  phone_verified_at : Option Nat
deriving Repr, DecidableEq

/-- Row of the wa_auth_codes table. -/
structure AuthCode where
  id : Nat
  phone_number : String
  code_hash : String
  attempts : Nat
  status : String
  wa_message_id : Option String
  ttl_expires_at : Nat
  verified_at : Option Nat
deriving Repr, DecidableEq

/-- JWT payload produced on successful verification (AuthPayload in
auth.service). -/
structure AuthPayload where
  userId : String
  role : String
  sessionId : String
deriving Repr, DecidableEq

/-- State touched by the auth service: the wa_auth_codes and users tables,
audit records, and a counter supplying fresh row ids. -/
structure AuthState where
  codes : List AuthCode
  users : List UserRow
  audit_events : List AuditEvent
  nextCodeId : Nat
deriving Repr, DecidableEq

/-- Model of bcrypt.hash: a deterministic tag of the plaintext. -/
def bcryptHash (code : String) : String :=
  "bcrypt$" ++ code

/-- Model of bcrypt.compare: succeeds exactly when the stored hash was
produced by hashing the submitted code. -/
def bcryptCompare (code hash : String) : Bool :=
  hash == bcryptHash code

/-- SELECT id, attempts FROM wa_auth_codes WHERE phone_number = $1 AND
status = .pending. AND ttl_expires_at > NOW(), first row. -/
def findPendingLive (codes : List AuthCode) (phone : String) (now : Nat) : Option AuthCode :=
  codes.find? (fun r => r.phone_number == phone && r.status == "pending"
    && decide (now < r.ttl_expires_at))

/-- INSERT INTO wa_auth_codes ... ON CONFLICT (phone_number) WHERE
status = .pending. DO UPDATE SET code_hash, ttl_expires_at, attempts = 0:
when a pending row for the phone exists it is updated in place, otherwise
a fresh pending row is appended. -/
def upsertPending (codes : List AuthCode) (newId : Nat) (phone hash : String)
    (expiresAt : Nat) : List AuthCode :=
  if codes.any (fun r => r.phone_number == phone && r.status == "pending") then
    codes.map (fun r =>
      if r.phone_number == phone && r.status == "pending" then
        { r with code_hash := hash, ttl_expires_at := expiresAt, attempts := 0 }
      else r)
  else
    codes ++ [{ id := newId
                phone_number := phone
                code_hash := hash
                attempts := 0
                status := "pending"
                wa_message_id := none
                ttl_expires_at := expiresAt
                verified_at := none }]

/-- UPDATE wa_auth_codes SET wa_message_id = $1 WHERE phone_number = $2
AND status = .pending. -/
def setMessageId (codes : List AuthCode) (phone mid : String) : List AuthCode :=
  codes.map (fun r =>
    if r.phone_number == phone && r.status == "pending" then
      { r with wa_message_id := some mid }
    else r)

/-- Second half of AuthService.requestOTP: the upsert of the pending code
followed by the WhatsApp send. waSend is the collaborator outcome: some
messageId on success, none when the send fails with 503; in the failure
case the upsert has already been applied, since these queries do not run
in one transaction. -/
def requestOTPStore (phone otp : String) (now : Nat) (waSend : Option String)
    (st : AuthState) : AuthState × Option AppError :=
  let codes1 := upsertPending st.codes st.nextCodeId phone (bcryptHash otp)
    (now + 5 * 60 * 1000)
  let st1 := { st with codes := codes1, nextCodeId := st.nextCodeId + 1 }
  match waSend with
  | none => (st1, some ⟨"Failed to send OTP via WhatsApp", 503⟩)
  | some mid => ({ st1 with codes := setMessageId st1.codes phone mid }, none)

/-- AuthService.requestOTP: rejects with 429 when a live pending challenge
for the phone has accumulated at least 5 attempts, otherwise upserts the
pending code and sends it. Returns the post state and the error, if any. -/
def requestOTP (phone otp : String) (now : Nat) (waSend : Option String)
    (st : AuthState) : AuthState × Option AppError :=
  match findPendingLive st.codes phone now with
  | some r =>
    if 5 ≤ r.attempts then
      (st, some ⟨"Too many OTP attempts. Please try again later.", 429⟩)
    else
      requestOTPStore phone otp now waSend st
  | none => requestOTPStore phone otp now waSend st

/-- UPDATE wa_auth_codes SET ... WHERE id = $1. -/
def updateCode (codes : List AuthCode) (cid : Nat) (f : AuthCode → AuthCode) :
    List AuthCode :=
  codes.map (fun r => if r.id == cid then f r else r)

/-- Success branch of AuthService.verifyOTP: mark the challenge verified,
get or create the user (default role patient), stamp the verification
instant, emit the auth.login audit record and return the JWT payload. -/
def verifyOTPSuccess (phone : String) (now : Nat) (newUserId sessionId : String)
    (r : AuthCode) (st : AuthState) : AuthState × Except AppError AuthPayload :=
  let codes2 := updateCode st.codes r.id
    (fun c => { c with status := "verified", verified_at := some now })
  match st.users.find? (fun u => u.phone_number == phone) with
  | none =>
    let u : UserRow := { id := newUserId
                         phone_number := phone
                         full_name := none
                         role := "patient"
                         phone_verified_at := some now }
    ({ st with
        codes := codes2
        users := st.users ++ [u]
        audit_events := st.audit_events ++ [⟨some u.id, "auth.login", "user", u.id⟩] },
     .ok ⟨u.id, u.role, sessionId⟩)
  | some u =>
    ({ st with
        codes := codes2
        users := st.users.map (fun v =>
          if v.id == u.id then { v with phone_verified_at := some now } else v)
        audit_events := st.audit_events ++ [⟨some u.id, "auth.login", "user", u.id⟩] },
     .ok ⟨u.id, u.role, sessionId⟩)

/-- AuthService.verifyOTP: 404 when no pending challenge exists for the
phone, 401 expired (marking the row expired) when past the expiry instant,
401 invalid (incrementing attempts) when the hash comparison fails,
otherwise the success branch. newUserId and sessionId stand for the
freshly generated UUIDs. -/
def verifyOTP (phone code : String) (now : Nat) (newUserId sessionId : String)
    (st : AuthState) : AuthState × Except AppError AuthPayload :=
  match st.codes.find? (fun r => r.phone_number == phone && r.status == "pending") with
  | none => (st, .error ⟨"No pending OTP found", 404⟩)
  | some r =>
    if r.ttl_expires_at < now then
      ({ st with codes := updateCode st.codes r.id (fun c => { c with status := "expired" }) },
       .error ⟨"OTP has expired", 401⟩)
    else if bcryptCompare code r.code_hash then
      verifyOTPSuccess phone now newUserId sessionId r st
    else
      ({ st with
          codes := updateCode st.codes r.id
            (fun c => { c with attempts := c.attempts + 1 }) },
       .error ⟨"Invalid OTP", 401⟩)

/-- Invariant of §3: no two pending wa_auth_codes rows share a phone
number, i.e. each phone has at most one pending challenge. -/
def pendingDistinct (codes : List AuthCode) : Prop :=
  codes.Pairwise (fun a b =>
    a.status = "pending" → b.status = "pending" → a.phone_number ≠ b.phone_number)

instance pendingDistinctDec (codes : List AuthCode) : Decidable (pendingDistinct codes) := by
  unfold pendingDistinct
  exact inferInstance

/-- Row of the providers table (fields used by assignment). -/
structure Provider where
  id : String
  user_id : String
  provider_type : String
  max_concurrent_sessions : Nat
  is_active : Bool
deriving Repr, DecidableEq

/-- Row of the consultations table (fields used by the lifecycle). -/
structure Consultation where
  id : String
  patient_id : String
  provider_id : Option String
  status : String
  started_at : Option Nat
  ended_at : Option Nat
  consultation_notes : Option String
  duration_minutes : Option Nat
  capacity_cap_minutes : Nat
  referral_extension_applied : Bool
deriving Repr, DecidableEq

/-- Row of the prescriptions table. -/
structure Prescription where
  id : String
  consultation_id : String
  prescribing_provider_id : String
  patient_id : String
  qr_code_data : String
  qr_enabled : Bool
  pdf_url : Option String
  pdf_downloaded_at : Option Nat
  status : String
  fulfilled_at : Option Nat
  fulfilling_pharmacy_id : Option String
  expires_at : Nat
  created_at : Nat
deriving Repr, DecidableEq

/-- Row of the prescription_items table. -/
structure PrescriptionItem where
  prescription_id : String
  drug_name : String
  strength : String
  form : String
  quantity : String
  instructions : String
  substitution_allowed : Bool
deriving Repr, DecidableEq

/-- Row of the pharmacy_claims table; dispensed_items holds the JSON
payload written by fulfillment. -/
structure PharmacyClaim where
  prescription_id : String
  pharmacy_id : String
  status : String
  dispensed_items : Option (List String)
deriving Repr, DecidableEq

/-- Row of the video_call_events table. -/
structure VideoCallEvent where
  consultation_id : String
  started_at : Nat
  ended_at : Option Nat
deriving Repr, DecidableEq

/-- One medication entry of the prescriptionData payload handed to
createPrescription. -/
structure MedicationInput where
  name : String
  strength : String
  form : String
  quantity : String
  instructions : String
  substitution_allowed : Option Bool
deriving Repr, DecidableEq

/-- Projection of a prescription item returned to the pharmacy: the five
columns selected for the item-only view. -/
structure MedicationView where
  drug_name : String
  strength : String
  form : String
  quantity : String
  instructions : String
deriving Repr, DecidableEq

/-- Masked prescription view returned to the pharmacy by the QR
verification endpoint. -/
structure PharmacyPrescriptionView where
  id : String
  medications : List MedicationView
  prescribing_doctor : String
  issue_date : Nat
deriving Repr, DecidableEq

/-- Result of PrescriptionService.verifyPrescriptionQR. -/
inductive VerifyQRResult where
  | invalid (reason : String)
  | valid (view : PharmacyPrescriptionView)
deriving Repr, DecidableEq

/-- State touched by the consultation and prescription services. -/
structure DBState where
  users : List UserRow
  providers : List Provider
  consultations : List Consultation
  prescriptions : List Prescription
  prescription_items : List PrescriptionItem
  pharmacy_claims : List PharmacyClaim
  video_call_events : List VideoCallEvent
  audit_events : List AuditEvent
deriving Repr, DecidableEq

/-- PrescriptionService.createPrescription, run inside one transaction:
404 when the consultation row does not exist (the only check performed),
otherwise insert the prescription header (status active, QR enabled,
expiry now + 30 days) and its items (substitution_allowed defaulting to
true), and emit the audit record. newId and qrCodeData stand for the
generated UUID and the random token. -/
def createPrescription (consultationId providerId : String)
    (medications : List MedicationInput) (newId qrCodeData : String) (now : Nat)
    (st : DBState) : Except AppError (DBState × Prescription) :=
  match st.consultations.find? (fun c => c.id == consultationId) with
  | none => .error ⟨"Consultation not found", 404⟩
  | some c =>
    let p : Prescription :=
      { id := newId
        consultation_id := consultationId
        prescribing_provider_id := providerId
        patient_id := c.patient_id
        qr_code_data := qrCodeData
        qr_enabled := true
        pdf_url := none
        pdf_downloaded_at := none
        status := "active"
        fulfilled_at := none
        fulfilling_pharmacy_id := none
        expires_at := now + 30 * 24 * 60 * 60 * 1000
        created_at := now }
    .ok ({ st with
            prescriptions := st.prescriptions ++ [p]
            prescription_items := st.prescription_items ++ medications.map (fun m =>
              { prescription_id := newId
                drug_name := m.name
                strength := m.strength
                form := m.form
                quantity := m.quantity
                instructions := m.instructions
                substitution_allowed := m.substitution_allowed.getD true })
            audit_events := st.audit_events ++
              [⟨some c.patient_id, "prescription.created", "prescription", newId⟩] }, p)

/-- Pharmacy-facing rendering of the prescriber: the literal prefix Dr.
followed by the first 8 characters of the provider id. -/
def doctorToken (providerId : String) : String :=
  "Dr. " ++ providerId.take 8

/-- SELECT drug_name, strength, form, quantity, instructions FROM
prescription_items WHERE prescription_id = $1. -/
def maskedItems (st : DBState) (prescriptionId : String) : List MedicationView :=
  (st.prescription_items.filter (fun i => i.prescription_id == prescriptionId)).map
    (fun i => ⟨i.drug_name, i.strength, i.form, i.quantity, i.instructions⟩)

/-- SELECT p.*, u.full_name as patient_name FROM prescriptions p JOIN
users u ON p.patient_id = u.id WHERE p.qr_code_data = $1: the prescription
row looked up by token; the inner join makes the row visible only when
the patient user row exists (the patient name itself is fetched but never
returned to the pharmacy). -/
def lookupRx (st : DBState) (qrCodeData : String) : Option Prescription :=
  match st.prescriptions.find? (fun p => p.qr_code_data == qrCodeData) with
  | none => none
  | some p =>
    match st.users.find? (fun u => u.id == p.patient_id) with
    | none => none
    | some _patient => some p

/-- PrescriptionService.verifyPrescriptionQR: look up the prescription by
token (joined with the patient user row), reject with invalid_code,
pdf_downloaded, expired or already_used, otherwise insert a ready
pharmacy claim and return the masked view. -/
def verifyPrescriptionQR (qrCodeData pharmacyId : String) (now : Nat)
    (st : DBState) : DBState × VerifyQRResult :=
  match lookupRx st qrCodeData with
  | none => (st, .invalid "invalid_code")
  | some p =>
    if !p.qr_enabled then (st, .invalid "pdf_downloaded")
    else if p.expires_at < now then (st, .invalid "expired")
    else if p.status == "fulfilled" then (st, .invalid "already_used")
    else
      ({ st with pharmacy_claims :=
           st.pharmacy_claims ++ [⟨p.id, pharmacyId, "ready", none⟩] },
       .valid ⟨p.id, maskedItems st p.id, doctorToken p.prescribing_provider_id,
               p.created_at⟩)

/-- PrescriptionService.downloadPrescriptionPDF, run inside one
transaction: 404 when no prescription matches the id and patient (the
lookup joins the prescriber, so a missing provider row also yields no
rows), otherwise permanently clear qr_enabled, record the document URL
and emit the audit record. pdfUrl stands for the object-store result. -/
def downloadPrescriptionPDF (prescriptionId userId pdfUrl : String) (now : Nat)
    (st : DBState) : Except AppError DBState :=
  match st.prescriptions.find? (fun p => p.id == prescriptionId && p.patient_id == userId) with
  | none => .error ⟨"Prescription not found", 404⟩
  | some p =>
    match st.providers.find? (fun pr => pr.id == p.prescribing_provider_id) with
    | none => .error ⟨"Prescription not found", 404⟩
    | some _pr =>
      .ok { st with
              prescriptions := st.prescriptions.map (fun q =>
                if q.id == prescriptionId then
                  { q with
                      qr_enabled := false
                      pdf_url := some pdfUrl
                      pdf_downloaded_at := some now }
                else q)
              audit_events := st.audit_events ++
                [⟨some userId, "prescription.pdf_downloaded", "prescription", prescriptionId⟩] }

/-- PrescriptionService.fulfillPrescription, run inside one transaction:
unconditionally mark the matching pharmacy claim dispensed with the
dispensed items, mark the prescription fulfilled recording the pharmacy,
and emit the audit record. No current-status condition appears in either
update, and the operation never fails on an already fulfilled
prescription. -/
def fulfillPrescription (prescriptionId pharmacyId : String)
    (dispensedItems : List String) (now : Nat) (st : DBState) : DBState :=
  { st with
      pharmacy_claims := st.pharmacy_claims.map (fun c =>
        if c.prescription_id == prescriptionId && c.pharmacy_id == pharmacyId then
          { c with status := "dispensed", dispensed_items := some dispensedItems }
        else c)
      prescriptions := st.prescriptions.map (fun p =>
        if p.id == prescriptionId then
          { p with
              status := "fulfilled"
              fulfilled_at := some now
              fulfilling_pharmacy_id := some pharmacyId }
        else p)
      audit_events := st.audit_events ++
        [⟨none, "prescription.fulfilled", "prescription", prescriptionId⟩] }

/-- Count of consultations assigned to the provider in a non-terminal
assignment state, the aggregate of the assignment query. -/
def nonTerminalLoad (st : DBState) (providerId : String) : Nat :=
  (st.consultations.filter (fun c => c.provider_id == some providerId &&
    (c.status == "matched" || c.status == "active" || c.status == "extended"))).length

/-- Eligibility filter of the assignment query: an active GP whose
aggregate load is NULL (no non-terminal consultations, i.e. load 0) or
strictly below max_concurrent_sessions. -/
def eligibleGP (st : DBState) (p : Provider) : Bool :=
  p.provider_type == "gp" && p.is_active &&
    (nonTerminalLoad st p.id == 0 ||
     decide (nonTerminalLoad st p.id < p.max_concurrent_sessions))

/-- ORDER BY active_count ASC NULLS FIRST LIMIT 1 over the eligible
providers: a least-loaded eligible provider, none when no provider is
eligible. -/
def pickGP (st : DBState) : Option Provider :=
  (st.providers.filter (eligibleGP st)).argmin (fun p => nonTerminalLoad st p.id)

/-- ConsultationService.assignGP: 503 when no eligible GP exists,
otherwise record the chosen provider on the consultation and set its
status to matched (the update carries no condition on the current
status). -/
def assignGP (consultationId : String) (st : DBState) : Except AppError DBState :=
  match pickGP st with
  | none => .error ⟨"No GP available at the moment", 503⟩
  | some gp =>
    .ok { st with consultations := st.consultations.map (fun c =>
      if c.id == consultationId then
        { c with provider_id := some gp.id, status := "matched" }
      else c) }

/-- UPDATE phase of ConsultationService.startConsultation: set status
active and the start instant on the row matching both the consultation id
and the provider id, with no condition on the current status; a provider
mismatch simply touches no row. -/
def applyStartUpdate (consultationId providerId : String) (now : Nat)
    (l : List Consultation) : List Consultation :=
  l.map (fun c =>
    if c.id == consultationId && c.provider_id == some providerId then
      { c with status := "active", started_at := some now }
    else c)

/-- ConsultationService.startConsultation: runs the unconditional update
above, reads the consultation back joined with the patient user, logs the
video call event and sends the video link. none models the runtime crash
when the consultation or its patient row is missing; there is no
Conflict check anywhere on this path. -/
def startConsultation (consultationId providerId : String) (now : Nat)
    (st : DBState) : Option (DBState × Consultation) :=
  match (applyStartUpdate consultationId providerId now st.consultations).find?
      (fun c => c.id == consultationId) with
  | none => none
  | some c =>
    match st.users.find? (fun u => u.id == c.patient_id) with
    | none => none
    | some _patient =>
      some ({ st with
               consultations := applyStartUpdate consultationId providerId now st.consultations
               video_call_events := st.video_call_events ++ [⟨consultationId, now, none⟩] }, c)

/-- ConsultationService.endConsultation: unconditionally set status
completed, the end instant, the notes and the computed duration on the
row matching the id (no condition on the current status), and close the
open video call event. none models the runtime crash on the RETURNING
row when the consultation is missing. -/
def endConsultation (consultationId notes : String) (now : Nat)
    (st : DBState) : Option DBState :=
  if st.consultations.any (fun c => c.id == consultationId) then
    some { st with
            consultations := st.consultations.map (fun c =>
              if c.id == consultationId then
                { c with
                    status := "completed"
                    ended_at := some now
                    consultation_notes := some notes
                    duration_minutes := c.started_at.map (fun s0 => (now - s0) / 60000) }
              else c)
            video_call_events := st.video_call_events.map (fun v =>
              if v.consultation_id == consultationId && v.ended_at == none then
                { v with ended_at := some now }
              else v) }
  else none

/-- ConsultationService.extendConsultation: unconditionally add 10
minutes to the time-box cap, set the extension flag and set status
extended on the row matching the id; there is no guard on the flag and
the operation never fails. -/
def extendConsultation (consultationId : String) (st : DBState) : DBState :=
  { st with consultations := st.consultations.map (fun c =>
      if c.id == consultationId then
        { c with
            capacity_cap_minutes := c.capacity_cap_minutes + 10
            referral_extension_applied := true
            status := "extended" }
      else c) }

/-- Concrete auth state for evaluation: one live pending challenge with 2
failed attempts for the first phone, plus an already verified challenge
for a second phone. -/
def stFixAuth : AuthState :=
  { codes := [{ id := 0
                phone_number := "+254700000001"
                code_hash := bcryptHash "123456"
                attempts := 2
                status := "pending"
                wa_message_id := some "m0"
                ttl_expires_at := 400000
                verified_at := none },
              { id := 1
                phone_number := "+254700000002"
                code_hash := bcryptHash "654321"
                attempts := 0
                status := "verified"
                wa_message_id := some "m1"
                ttl_expires_at := 300000
                verified_at := some 100 }]
    users := []
    audit_events := []
    nextCodeId := 2 }

/-- Concrete pending challenge that has already accumulated 5 failed
attempts and expires at instant 400000. -/
def codeFixAtCap : AuthCode :=
  { id := 0
    phone_number := "+254700000001"
    code_hash := bcryptHash "123456"
    attempts := 5
    status := "pending"
    wa_message_id := some "m0"
    ttl_expires_at := 400000
    verified_at := none }

/-- Concrete auth state for evaluation: a single live pending challenge
that has already accumulated 5 failed attempts. -/
def stFixAttempts : AuthState :=
  { codes := [codeFixAtCap]
    users := []
    audit_events := []
    nextCodeId := 1 }

/-- Concrete patient user row for evaluation. -/
def patFix : UserRow :=
  { id := "p1", phone_number := "+254700000002", full_name := some "Pat One",
    role := "patient", phone_verified_at := some 5 }

/-- Concrete active GP with zero concurrent-session capacity. -/
def gpZeroCap : Provider :=
  { id := "g0", user_id := "ug0", provider_type := "gp",
    max_concurrent_sessions := 0, is_active := true }

/-- Concrete consultation in the requested state, unassigned. -/
def consRequested : Consultation :=
  { id := "e1", patient_id := "p1", provider_id := none, status := "requested",
    started_at := none, ended_at := none, consultation_notes := none,
    duration_minutes := none, capacity_cap_minutes := 15,
    referral_extension_applied := false }

/-- Concrete state for the assignment scenario: one requested consultation
and one idle GP whose capacity is 0. -/
def stFixAssign : DBState :=
  { users := [patFix], providers := [gpZeroCap], consultations := [consRequested],
    prescriptions := [], prescription_items := [], pharmacy_claims := [],
    video_call_events := [], audit_events := [] }

/-- Concrete state expected after assignment succeeds on stFixAssign. -/
def stFixMatched : DBState :=
  { stFixAssign with
      consultations :=
        [{ consRequested with provider_id := some "g0", status := "matched" }] }

/-- Concrete consultation that has already completed, assigned to g0. -/
def consCompleted : Consultation :=
  { consRequested with
      provider_id := some "g0"
      status := "completed"
      started_at := some 10
      ended_at := some 20 }

/-- Concrete state for the lifecycle scenario: the consultation has
already completed, assigned to g0. -/
def stFixCompleted : DBState :=
  { stFixAssign with consultations := [consCompleted] }

/-- Concrete consultation that is already extended once, with the
extension flag set and a 25 minute cap. -/
def consExtended : Consultation :=
  { consRequested with
      provider_id := some "g0"
      status := "extended"
      started_at := some 10
      capacity_cap_minutes := 25
      referral_extension_applied := true }

/-- Concrete state for the extension scenario. -/
def stFixExtended : DBState :=
  { stFixAssign with consultations := [consExtended] }

/-- Concrete active prescription with one line item. -/
def rxFix : Prescription :=
  { id := "rx1", consultation_id := "e1", prescribing_provider_id := "gpid12345678",
    patient_id := "p1", qr_code_data := "tok1", qr_enabled := true, pdf_url := none,
    pdf_downloaded_at := none, status := "active", fulfilled_at := none,
    fulfilling_pharmacy_id := none, expires_at := 10000, created_at := 1 }

/-- Concrete prescription item for rxFix. -/
def itemFix : PrescriptionItem :=
  { prescription_id := "rx1", drug_name := "Amoxicillin", strength := "500mg",
    form := "capsule", quantity := "21", instructions := "three times daily",
    substitution_allowed := true }

/-- Concrete state holding the active prescription rxFix. -/
def stFixRx : DBState :=
  { stFixAssign with prescriptions := [rxFix], prescription_items := [itemFix] }

/-- Concrete state where the prescription token has been disabled by a PDF
download. -/
def stFixDisabled : DBState :=
  { stFixRx with prescriptions := [{ rxFix with qr_enabled := false }] }

/-- Concrete state where two pharmacies hold ready claims on the same
prescription. -/
def stFixClaims : DBState :=
  { stFixRx with
      pharmacy_claims :=
        [⟨"rx1", "phA", "ready", none⟩, ⟨"rx1", "phB", "ready", none⟩] }

/-- Concrete medication input for prescription creation. -/
def medFix : MedicationInput :=
  { name := "Amoxicillin", strength := "500mg", form := "capsule",
    quantity := "21", instructions := "three times daily",
    substitution_allowed := none }

/-- Auxiliary: find? commutes with a map that leaves the predicate
unchanged. -/
theorem find?_map_pred {α : Type} (f : α → α) (p : α → Bool) (l : List α)
    (hp : ∀ a, p (f a) = p a) : (l.map f).find? p = (l.find? p).map f := by
  induction l with
  | nil => rfl
  | cons a t ih =>
    by_cases hpa : p a = true
    · rw [List.map_cons, List.find?_cons_of_pos _ ((hp a).trans hpa),
        List.find?_cons_of_pos _ hpa]
      rfl
    · have hpa2 : ¬ p (f a) = true := by rw [hp a]; exact hpa
      rw [List.map_cons, List.find?_cons_of_neg _ hpa2, List.find?_cons_of_neg _ hpa, ih]

/-- Auxiliary: the single-pending invariant survives any row rewrite that
keeps phone numbers and does not turn a non-pending row pending. -/
theorem pendingDistinct_map {f : AuthCode → AuthCode}
    (hph : ∀ a, (f a).phone_number = a.phone_number)
    (hst : ∀ a, (f a).status = "pending" → a.status = "pending")
    {codes : List AuthCode} (h : pendingDistinct codes) :
    pendingDistinct (codes.map f) := by
  unfold pendingDistinct at h ⊢
  rw [List.pairwise_map]
  refine h.imp ?_
  intro a b hab hpa hpb
  rw [hph a, hph b]
  exact hab (hst a hpa) (hst b hpb)

/-- Auxiliary: the upsert of a pending challenge preserves the
single-pending invariant. -/
theorem pendingDistinct_upsertPending (codes : List AuthCode) (newId : Nat)
    (phone hash : String) (expiresAt : Nat) (h : pendingDistinct codes) :
    pendingDistinct (upsertPending codes newId phone hash expiresAt) := by
  unfold upsertPending
  split
  · refine pendingDistinct_map ?_ ?_ h
    · intro a
      by_cases hc : (a.phone_number == phone && a.status == "pending") = true
      · simp [hc]
      · simp [hc]
    · intro a
      by_cases hc : (a.phone_number == phone && a.status == "pending") = true
      · simp [hc]
      · simp [hc]
  · next hany =>
    rw [pendingDistinct, List.pairwise_append]
    refine ⟨h, by simp, ?_⟩
    intro a ha b hb hpa hpb hphe
    have hfa : ∀ x ∈ codes, x.phone_number = phone → ¬ x.status = "pending" := by
      simpa using hany
    rw [List.mem_singleton] at hb
    rw [hb] at hphe
    exact hfa a ha (by simpa using hphe) hpa

/-- Auxiliary: stamping the WhatsApp message id preserves the
single-pending invariant. -/
theorem pendingDistinct_setMessageId (codes : List AuthCode) (phone mid : String)
    (h : pendingDistinct codes) : pendingDistinct (setMessageId codes phone mid) := by
  unfold setMessageId
  refine pendingDistinct_map ?_ ?_ h
  · intro a
    by_cases hc : (a.phone_number == phone && a.status == "pending") = true
    · simp [hc]
    · simp [hc]
  · intro a
    by_cases hc : (a.phone_number == phone && a.status == "pending") = true
    · simp [hc]
    · simp [hc]

/-- Auxiliary: the store phase of requestOTP preserves the single-pending
invariant. -/
theorem pendingDistinct_requestOTPStore (phone otp : String) (now : Nat)
    (waSend : Option String) (st : AuthState) (h : pendingDistinct st.codes) :
    pendingDistinct ((requestOTPStore phone otp now waSend st).1).codes := by
  unfold requestOTPStore
  cases waSend with
  | none =>
    exact pendingDistinct_upsertPending _ _ _ _ _ h
  | some mid =>
    exact pendingDistinct_setMessageId _ _ _
      (pendingDistinct_upsertPending _ _ _ _ _ h)

/-- Auxiliary: any updateCode rewrite that keeps phone numbers and never
makes a row pending preserves the single-pending invariant. -/
theorem pendingDistinct_updateCode (codes : List AuthCode) (cid : Nat)
    (f : AuthCode → AuthCode)
    (hph : ∀ a, (f a).phone_number = a.phone_number)
    (hst : ∀ a, (f a).status = "pending" → a.status = "pending")
    (h : pendingDistinct codes) : pendingDistinct (updateCode codes cid f) := by
  unfold updateCode
  refine pendingDistinct_map ?_ ?_ h
  · intro a
    by_cases hc : (a.id == cid) = true
    · simp [hc, hph]
    · simp [hc]
  · intro a
    by_cases hc : (a.id == cid) = true
    · simp only [hc, if_pos]
      exact hst a
    · simp [hc]

/-- Auxiliary: the length of the codes table is unchanged by the store
phase when a pending row for the phone already exists. -/
theorem requestOTPStore_length (phone otp : String) (now : Nat)
    (waSend : Option String) (st : AuthState)
    (hpend : st.codes.any (fun r => r.phone_number == phone && r.status == "pending") = true) :
    ((requestOTPStore phone otp now waSend st).1).codes.length = st.codes.length := by
  unfold requestOTPStore upsertPending setMessageId
  cases waSend with
  | none => simp [hpend]
  | some mid => simp [hpend]

/-- C2: a phone number has at most one pending challenge at any instant:
the invariant that no two pending rows share a phone is preserved by
requestOTP and by verifyOTP, and when a pending row for the phone already
exists, requestOTP supersedes it in place, leaving the number of rows
unchanged rather than adding a second one. -/
theorem c2_single_pending_per_phone :
    (∀ phone otp now waSend st, pendingDistinct st.codes →
        pendingDistinct ((requestOTP phone otp now waSend st).1).codes) ∧
    (∀ phone code now newUserId sessionId st, pendingDistinct st.codes →
        pendingDistinct ((verifyOTP phone code now newUserId sessionId st).1).codes) ∧
    (∀ phone otp now waSend st,
        st.codes.any (fun r => r.phone_number == phone && r.status == "pending") = true →
        ((requestOTP phone otp now waSend st).1).codes.length = st.codes.length) := by
  refine ⟨?_, ?_, ?_⟩
  · intro phone otp now waSend st h
    unfold requestOTP
    cases hfind : findPendingLive st.codes phone now with
    | none => exact pendingDistinct_requestOTPStore _ _ _ _ _ h
    | some r =>
      by_cases hatt : 5 ≤ r.attempts
      · simp only [hatt, if_pos]
        exact h
      · simp only [hatt, if_neg, not_false_eq_true]
        exact pendingDistinct_requestOTPStore _ _ _ _ _ h
  · intro phone code now newUserId sessionId st h
    unfold verifyOTP
    cases hfind : st.codes.find? (fun r => r.phone_number == phone && r.status == "pending") with
    | none => exact h
    | some r =>
      by_cases hexp : r.ttl_expires_at < now
      · simp only [hexp, if_pos]
        refine pendingDistinct_updateCode _ _ _ ?_ ?_ h
        · intro a; rfl
        · intro a hcontra
          exact absurd hcontra (by simp)
      · simp only [hexp, if_neg, not_false_eq_true]
        by_cases hcmp : bcryptCompare code r.code_hash = true
        · simp only [hcmp, if_pos]
          unfold verifyOTPSuccess
          have hcodes2 : pendingDistinct (updateCode st.codes r.id
              (fun c => { c with status := "verified", verified_at := some now })) := by
            refine pendingDistinct_updateCode _ _ _ ?_ ?_ h
            · intro a; rfl
            · intro a hcontra
              exact absurd hcontra (by simp)
          cases huser : st.users.find? (fun u => u.phone_number == phone) with
          | none => exact hcodes2
          | some u => exact hcodes2
        · simp only [hcmp, if_neg, not_false_eq_true]
          refine pendingDistinct_updateCode _ _ _ ?_ ?_ h
          · intro a; rfl
          · intro a ha
            exact ha
  · intro phone otp now waSend st hpend
    unfold requestOTP
    cases hfind : findPendingLive st.codes phone now with
    | none => exact requestOTPStore_length _ _ _ _ _ hpend
    | some r =>
      by_cases hatt : 5 ≤ r.attempts
      · simp only [hatt, if_pos]
      · simp only [hatt, if_neg, not_false_eq_true]
        exact requestOTPStore_length _ _ _ _ _ hpend

/-- C2 witness: the preservation and in-place-supersede statements applied
to the concrete fixture state. -/
theorem c2_single_pending_per_phone_witness :
    pendingDistinct ((requestOTP "+254700000001" "999999" 1000 (some "m9") stFixAuth).1).codes ∧
    pendingDistinct ((verifyOTP "+254700000001" "123456" 1000 "u1" "s1" stFixAuth).1).codes ∧
    ((requestOTP "+254700000001" "999999" 1000 (some "m9") stFixAuth).1).codes.length =
      stFixAuth.codes.length :=
  ⟨c2_single_pending_per_phone.1 "+254700000001" "999999" 1000 (some "m9") stFixAuth (by decide),
   c2_single_pending_per_phone.2.1 "+254700000001" "123456" 1000 "u1" "s1" stFixAuth (by decide),
   c2_single_pending_per_phone.2.2 "+254700000001" "999999" 1000 (some "m9") stFixAuth (by decide)⟩

/-- C3 counterexample: in the concrete state whose single pending
challenge has 5 recorded failed attempts and has not expired, a verify
call with the matching code succeeds, and a verify call with a wrong code
fails with Invalid OTP (401); neither outcome is TooManyAttempts, so a
challenge at the attempt cap does not reject further verify calls. -/
theorem c3_counterexample :
    (stFixAttempts.codes.map (fun r => (r.status, r.attempts)) = [("pending", 5)]) ∧
    (verifyOTP "+254700000001" "123456" 1000 "u1" "s1" stFixAttempts).2 =
      .ok ⟨"u1", "patient", "s1"⟩ ∧
    (verifyOTP "+254700000001" "999999" 1000 "u1" "s1" stFixAttempts).2 =
      .error ⟨"Invalid OTP", 401⟩ :=
  ⟨rfl, rfl, rfl⟩

/-- C3 amended: the 5-attempt cap is enforced only by requestOTP, not by
verifyOTP. For a live pending challenge with at least 5 recorded failed
attempts, a matching code still verifies successfully, a non-matching
code returns Invalid OTP, and the outcome is never TooManyAttempts. -/
theorem c3_verify_ignores_attempt_cap (phone code : String) (now : Nat)
    (newUserId sessionId : String) (st : AuthState) (r : AuthCode)
    (hfind : st.codes.find? (fun c => c.phone_number == phone && c.status == "pending")
      = some r)
    (hlive : ¬ r.ttl_expires_at < now)
    (_hatcap : 5 ≤ r.attempts) :
    (bcryptCompare code r.code_hash = true →
      ∃ payload, (verifyOTP phone code now newUserId sessionId st).2 = .ok payload) ∧
    (bcryptCompare code r.code_hash = false →
      (verifyOTP phone code now newUserId sessionId st).2 = .error ⟨"Invalid OTP", 401⟩) ∧
    (verifyOTP phone code now newUserId sessionId st).2 ≠
      .error ⟨"Too many OTP attempts. Please try again later.", 429⟩ := by
  unfold verifyOTP
  rw [hfind]
  simp only [if_neg hlive]
  refine ⟨?_, ?_, ?_⟩
  · intro hcmp
    rw [if_pos hcmp]
    unfold verifyOTPSuccess
    cases huser : st.users.find? (fun u => u.phone_number == phone) with
    | none => exact ⟨_, rfl⟩
    | some u => exact ⟨_, rfl⟩
  · intro hcmp
    rw [if_neg (by simp [hcmp])]
  · by_cases hcmp : bcryptCompare code r.code_hash = true
    · rw [if_pos hcmp]
      unfold verifyOTPSuccess
      cases huser : st.users.find? (fun u => u.phone_number == phone) with
      | none => simp
      | some u => simp
    · rw [if_neg hcmp]
      simp

/-- C3 amended witness: the amended statement applied to the concrete
fixture at the attempt cap. -/
theorem c3_verify_ignores_attempt_cap_witness :
    (bcryptCompare "123456" codeFixAtCap.code_hash = true →
      ∃ payload, (verifyOTP "+254700000001" "123456" 1000 "u1" "s1" stFixAttempts).2 =
        .ok payload) ∧
    (bcryptCompare "123456" codeFixAtCap.code_hash = false →
      (verifyOTP "+254700000001" "123456" 1000 "u1" "s1" stFixAttempts).2 =
        .error ⟨"Invalid OTP", 401⟩) ∧
    (verifyOTP "+254700000001" "123456" 1000 "u1" "s1" stFixAttempts).2 ≠
      .error ⟨"Too many OTP attempts. Please try again later.", 429⟩ :=
  c3_verify_ignores_attempt_cap "+254700000001" "123456" 1000 "u1" "s1" stFixAttempts
    codeFixAtCap (by decide) (by decide) (by decide)

/-- Auxiliary: after an upsert that hit an existing pending row, every
pending row for the phone carries the fresh hash, the fresh expiry and a
reset attempt counter. -/
theorem upsertPending_fields (codes : List AuthCode) (newId : Nat) (phone hash : String)
    (expiresAt : Nat)
    (hpend : codes.any (fun r => r.phone_number == phone && r.status == "pending") = true) :
    ∀ r ∈ upsertPending codes newId phone hash expiresAt,
      r.phone_number = phone → r.status = "pending" →
      r.attempts = 0 ∧ r.code_hash = hash ∧ r.ttl_expires_at = expiresAt := by
  unfold upsertPending
  rw [if_pos hpend]
  intro r hr hph hst
  rcases List.mem_map.mp hr with ⟨a, ha, hra⟩
  by_cases hc : (a.phone_number == phone && a.status == "pending") = true
  · rw [if_pos hc] at hra
    subst hra
    exact ⟨rfl, rfl, rfl⟩
  · rw [if_neg hc] at hra
    subst hra
    exact absurd (by simp [hph, hst]) hc

/-- Auxiliary: stamping the message id leaves every field other than the
message id unchanged, row by row. -/
theorem setMessageId_fields (codes : List AuthCode) (phone mid : String) :
    ∀ r ∈ setMessageId codes phone mid, ∃ a, a ∈ codes ∧
      r.phone_number = a.phone_number ∧ r.status = a.status ∧
      r.attempts = a.attempts ∧ r.code_hash = a.code_hash ∧
      r.ttl_expires_at = a.ttl_expires_at := by
  unfold setMessageId
  intro r hr
  rcases List.mem_map.mp hr with ⟨a, ha, hra⟩
  refine ⟨a, ha, ?_⟩
  by_cases hc : (a.phone_number == phone && a.status == "pending") = true
  · rw [if_pos hc] at hra
    subst hra
    exact ⟨rfl, rfl, rfl, rfl, rfl⟩
  · rw [if_neg hc] at hra
    subst hra
    exact ⟨rfl, rfl, rfl, rfl, rfl⟩

/-- C10: when requestOTP supersedes an existing pending challenge whose
attempt count is below the cap, the pending record for that phone ends
with attempt counter 0, the hash of the fresh code and the fresh expiry,
and no row is added: prior failed attempts do not carry over. -/
theorem c10_supersede_resets_attempts (phone otp : String) (now : Nat)
    (waSend : Option String) (st : AuthState)
    (hpend : st.codes.any (fun r => r.phone_number == phone && r.status == "pending") = true)
    (hbelow : Option.all (fun r => decide (r.attempts < 5))
      (findPendingLive st.codes phone now) = true) :
    (∀ r, r ∈ ((requestOTP phone otp now waSend st).1).codes →
        r.phone_number = phone → r.status = "pending" →
        r.attempts = 0 ∧ r.code_hash = bcryptHash otp ∧
        r.ttl_expires_at = now + 5 * 60 * 1000) ∧
    ((requestOTP phone otp now waSend st).1).codes.length = st.codes.length := by
  have hstore : requestOTP phone otp now waSend st = requestOTPStore phone otp now waSend st := by
    unfold requestOTP
    cases hfind : findPendingLive st.codes phone now with
    | none => rfl
    | some r =>
      rw [hfind] at hbelow
      simp only [Option.all] at hbelow
      have hlt : r.attempts < 5 := of_decide_eq_true hbelow
      show (if 5 ≤ r.attempts then
          (st, some ⟨"Too many OTP attempts. Please try again later.", 429⟩)
        else requestOTPStore phone otp now waSend st) =
        requestOTPStore phone otp now waSend st
      rw [if_neg (by omega)]
  rw [hstore]
  refine ⟨?_, requestOTPStore_length phone otp now waSend st hpend⟩
  unfold requestOTPStore
  cases waSend with
  | none =>
    intro r hr
    exact upsertPending_fields st.codes st.nextCodeId phone (bcryptHash otp)
      (now + 5 * 60 * 1000) hpend r hr
  | some mid =>
    intro r hr hph hst
    rcases setMessageId_fields _ phone mid r hr with ⟨a, ha, h1, h2, h3, h4, h5⟩
    have := upsertPending_fields st.codes st.nextCodeId phone (bcryptHash otp)
      (now + 5 * 60 * 1000) hpend a ha (h1 ▸ hph) (h2 ▸ hst)
    exact ⟨h3.trans this.1, h4.trans this.2.1, h5.trans this.2.2⟩

/-- C10 witness: the reset statement applied to the concrete fixture
state, whose pending challenge has 2 failed attempts. -/
theorem c10_supersede_resets_attempts_witness :
    ((requestOTP "+254700000001" "999999" 1000 (some "m9") stFixAuth).1).codes.length =
      stFixAuth.codes.length ∧
    (((requestOTP "+254700000001" "999999" 1000 (some "m9") stFixAuth).1).codes.find?
        (fun r => r.phone_number == "+254700000001" && r.status == "pending")).map
      (fun r => (r.attempts, r.code_hash, r.ttl_expires_at)) =
      some (0, bcryptHash "999999", 301000) := by
  have h := c10_supersede_resets_attempts "+254700000001" "999999" 1000 (some "m9")
    stFixAuth (by decide) (by decide)
  exact ⟨h.2, by decide⟩

/-- Auxiliary: the unconditional start update commutes with lookup by
consultation id. -/
theorem applyStartUpdate_find (cid pid : String) (now : Nat) (l : List Consultation) :
    (applyStartUpdate cid pid now l).find? (fun x => x.id == cid) =
      (l.find? (fun x => x.id == cid)).map (fun x =>
        if x.id == cid && x.provider_id == some pid then
          { x with status := "active", started_at := some now }
        else x) := by
  unfold applyStartUpdate
  refine find?_map_pred _ _ _ ?_
  intro a
  by_cases h : (a.id == cid) = true
  · by_cases h2 : (a.provider_id == some pid) = true
    · simp [h, h2]
    · simp [h, h2]
  · simp [h]

/-- C4 counterexample: in the concrete state whose consultation is
already completed and assigned to g0, startConsultation succeeds and
moves the status backward to active; no Conflict or InvalidTransition
rejection occurs. -/
theorem c4_counterexample :
    (stFixCompleted.consultations.map (fun c => c.status) = ["completed"]) ∧
    (startConsultation "e1" "g0" 100 stFixCompleted).map (fun r => r.2.status) =
      some "active" :=
  ⟨rfl, rfl⟩

/-- C4 amended: the lifecycle operations carry no status guard. When the
consultation and its patient row exist, startConsultation always
succeeds: it sets status active and the start instant exactly when the
caller is the recorded provider — regardless of the current status,
including completed — and silently changes nothing when the provider does
not match; no Conflict or InvalidTransition error is produced.
endConsultation likewise marks any existing consultation completed
whatever its current status, so backward transitions are not prevented
anywhere. -/
theorem c4_lifecycle_unguarded :
    (∀ cid pid : String, ∀ now : Nat, ∀ st : DBState, ∀ c : Consultation,
      st.consultations.find? (fun x => x.id == cid) = some c →
      (st.users.find? (fun u => u.id == c.patient_id)).isSome = true →
      ((c.provider_id = some pid →
         ∃ st2, startConsultation cid pid now st =
           some (st2, { c with status := "active", started_at := some now })) ∧
       (¬ c.provider_id = some pid →
         ∃ st2, startConsultation cid pid now st = some (st2, c)))) ∧
    (∀ cid notes : String, ∀ now : Nat, ∀ st : DBState,
      st.consultations.any (fun x => x.id == cid) = true →
      ∃ st3, endConsultation cid notes now st = some st3 ∧
        ∀ c3 ∈ st3.consultations, c3.id = cid → c3.status = "completed") := by
  constructor
  · intro cid pid now st c hfind huser
    have hcid : (c.id == cid) = true := by simpa using List.find?_some hfind
    obtain ⟨u, hu⟩ := Option.isSome_iff_exists.mp huser
    constructor
    · intro hp
      have hpb : (c.provider_id == some pid) = true := by simp [hp]
      unfold startConsultation
      rw [applyStartUpdate_find, hfind]
      simp only [Option.map_some', hcid, hpb, Bool.and_self, if_true]
      rw [hu]
      exact ⟨_, rfl⟩
    · intro hp
      have hpb : (c.provider_id == some pid) = false := by
        simpa using hp
      unfold startConsultation
      rw [applyStartUpdate_find, hfind]
      simp only [Option.map_some', hcid, hpb, Bool.and_false, Bool.false_eq_true,
        if_false]
      rw [hu]
      exact ⟨_, rfl⟩
  · intro cid notes now st hany
    unfold endConsultation
    rw [if_pos hany]
    refine ⟨_, rfl, ?_⟩
    intro c3 hc3 hid
    rcases List.mem_map.mp hc3 with ⟨a, ha, hra⟩
    by_cases hc : (a.id == cid) = true
    · rw [if_pos hc] at hra
      rw [← hra]
    · rw [if_neg hc] at hra
      subst hra
      exact absurd (by simp [hid]) hc

/-- C4 amended witness: the start and end statements applied to the
concrete completed-consultation fixture. -/
theorem c4_lifecycle_unguarded_witness :
    (∃ st2, startConsultation "e1" "g0" 100 stFixCompleted =
      some (st2, { consCompleted with status := "active", started_at := some 100 })) ∧
    (∃ st3, endConsultation "e1" "done" 200 stFixCompleted = some st3 ∧
      ∀ c3 ∈ st3.consultations, c3.id = "e1" → c3.status = "completed") :=
  ⟨(c4_lifecycle_unguarded.1 "e1" "g0" 100 stFixCompleted
      consCompleted (by decide) (by decide)).1 (by decide),
   c4_lifecycle_unguarded.2 "e1" "done" 200 stFixCompleted (by decide)⟩

/-- C6 counterexample: extending the concrete consultation that already
has the extension flag set adds another 10 minutes (25 becomes 35)
instead of being a no-op. -/
theorem c6_counterexample :
    (stFixExtended.consultations.map (fun c =>
      (c.referral_extension_applied, c.capacity_cap_minutes)) = [(true, 25)]) ∧
    ((extendConsultation "e1" stFixExtended).consultations.map
      (fun c => c.capacity_cap_minutes) = [35]) :=
  ⟨rfl, rfl⟩

/-- Auxiliary: extendConsultation rewrites the row with the matching id
by adding 10 minutes, setting the flag and forcing status extended. -/
theorem extendConsultation_find (cid : String) (st : DBState) (c : Consultation)
    (hfind : st.consultations.find? (fun x => x.id == cid) = some c) :
    (extendConsultation cid st).consultations.find? (fun x => x.id == cid) =
      some { c with
              capacity_cap_minutes := c.capacity_cap_minutes + 10
              referral_extension_applied := true
              status := "extended" } := by
  have hcid : (c.id == cid) = true := by simpa using List.find?_some hfind
  have hp : ∀ a : Consultation,
      ((if a.id == cid then
          ({ a with
              capacity_cap_minutes := a.capacity_cap_minutes + 10
              referral_extension_applied := true
              status := "extended" } : Consultation)
        else a).id == cid) = (a.id == cid) := by
    intro a
    by_cases h : (a.id == cid) = true
    · simp [h]
    · simp [h]
  have hcid2 : c.id = cid := by simpa using hcid
  unfold extendConsultation
  rw [find?_map_pred _ _ _ hp, hfind]
  simp [hcid2]

/-- C6 amended: extendConsultation is not idempotent: every call on an
existing consultation adds 10 minutes to the cap and sets the flag and
status, regardless of whether the extension flag is already set; two
consecutive calls therefore add 20 minutes; the operation never fails. -/
theorem c6_extend_not_idempotent (cid : String) (st : DBState) (c : Consultation)
    (hfind : st.consultations.find? (fun x => x.id == cid) = some c) :
    (∃ c2, (extendConsultation cid st).consultations.find? (fun x => x.id == cid) = some c2 ∧
      c2.capacity_cap_minutes = c.capacity_cap_minutes + 10 ∧
      c2.referral_extension_applied = true ∧ c2.status = "extended") ∧
    (∃ c3, (extendConsultation cid (extendConsultation cid st)).consultations.find?
        (fun x => x.id == cid) = some c3 ∧
      c3.capacity_cap_minutes = c.capacity_cap_minutes + 20) := by
  have h1 := extendConsultation_find cid st c hfind
  have h2 := extendConsultation_find cid (extendConsultation cid st) _ h1
  refine ⟨⟨_, h1, rfl, rfl, rfl⟩, ⟨_, h2, ?_⟩⟩
  dsimp only

/-- C6 amended witness: the non-idempotence statement applied to the
concrete already-extended fixture. -/
theorem c6_extend_not_idempotent_witness :
    (∃ c2, (extendConsultation "e1" stFixExtended).consultations.find?
        (fun x => x.id == "e1") = some c2 ∧
      c2.capacity_cap_minutes = consExtended.capacity_cap_minutes + 10 ∧
      c2.referral_extension_applied = true ∧ c2.status = "extended") ∧
    (∃ c3, (extendConsultation "e1" (extendConsultation "e1" stFixExtended)).consultations.find?
        (fun x => x.id == "e1") = some c3 ∧
      c3.capacity_cap_minutes = consExtended.capacity_cap_minutes + 20) :=
  c6_extend_not_idempotent "e1" stFixExtended consExtended (by decide)

/-- C5 counterexample: with a single active GP of capacity 0 carrying no
consultations, assignGP assigns it — the returned clinician has
non-terminal count 0 equal to its capacity 0 — instead of failing with
NoCapacity: the NULL-count disjunct of the eligibility filter admits
idle clinicians regardless of capacity. -/
theorem c5_counterexample :
    nonTerminalLoad stFixAssign "g0" = 0 ∧
    gpZeroCap.max_concurrent_sessions = 0 ∧
    (assignGP "e1" stFixAssign).toOption.map
      (fun s => s.consultations.map (fun c => (c.provider_id, c.status))) =
      some [(some "g0", "matched")] :=
  ⟨rfl, rfl, rfl⟩

/-- C5 amended: assignGP selects, among active GPs whose non-terminal
count is zero or strictly below their capacity, one of minimal count, and
transitions the consultation to matched with that clinician recorded;
when no such clinician exists it fails with the 503 no-capacity error.
A clinician with zero current encounters is eligible even when its
capacity is 0, so the returned clinician can have count equal to capacity
when both are zero; for clinicians with nonzero count the strict bound
holds. -/
theorem c5_assign_least_loaded (cid : String) (st : DBState) :
    (∀ e, assignGP cid st = .error e →
      e = ⟨"No GP available at the moment", 503⟩ ∧
      ∀ p ∈ st.providers, eligibleGP st p = false) ∧
    (∀ st2, assignGP cid st = .ok st2 →
      ∃ gp, gp ∈ st.providers ∧ eligibleGP st gp = true ∧
        (nonTerminalLoad st gp.id = 0 ∨
          nonTerminalLoad st gp.id < gp.max_concurrent_sessions) ∧
        (0 < nonTerminalLoad st gp.id →
          nonTerminalLoad st gp.id < gp.max_concurrent_sessions) ∧
        (∀ q ∈ st.providers, eligibleGP st q = true →
          nonTerminalLoad st gp.id ≤ nonTerminalLoad st q.id) ∧
        ∀ c ∈ st2.consultations, c.id = cid →
          c.provider_id = some gp.id ∧ c.status = "matched") := by
  constructor
  · intro e he
    unfold assignGP at he
    cases hpick : pickGP st with
    | none =>
      rw [hpick] at he
      refine ⟨by injection he with h; exact h.symm, ?_⟩
      intro p hp
      unfold pickGP at hpick
      have hnil : st.providers.filter (eligibleGP st) = [] :=
        List.argmin_eq_none.mp hpick
      by_contra hel
      have hmem : p ∈ st.providers.filter (eligibleGP st) :=
        List.mem_filter.mpr ⟨hp, by simpa using hel⟩
      rw [hnil] at hmem
      cases hmem
    | some gp =>
      rw [hpick] at he
      cases he
  · intro st2 hok
    unfold assignGP at hok
    cases hpick : pickGP st with
    | none =>
      rw [hpick] at hok
      cases hok
    | some gp =>
      rw [hpick] at hok
      unfold pickGP at hpick
      have hargmin : gp ∈ (st.providers.filter (eligibleGP st)).argmin
          (fun p => nonTerminalLoad st p.id) := Option.mem_def.mpr hpick
      have hmem : gp ∈ st.providers.filter (eligibleGP st) :=
        List.argmin_mem hargmin
      have hmem2 := List.mem_filter.mp hmem
      have helig : eligibleGP st gp = true := hmem2.2
      have hcap : nonTerminalLoad st gp.id = 0 ∨
          nonTerminalLoad st gp.id < gp.max_concurrent_sessions := by
        have h2 := helig
        unfold eligibleGP at h2
        simp only [Bool.and_eq_true, Bool.or_eq_true, beq_iff_eq,
          decide_eq_true_eq] at h2
        exact h2.2
      refine ⟨gp, hmem2.1, helig, hcap, ?_, ?_, ?_⟩
      · intro hpos
        cases hcap with
        | inl h0 => omega
        | inr hlt => exact hlt
      · intro q hq hqe
        exact List.le_of_mem_argmin (f := fun p => nonTerminalLoad st p.id)
          (List.mem_filter.mpr ⟨hq, hqe⟩) hargmin
      · injection hok with hok2
        subst hok2
        intro c hc hcid
        rcases List.mem_map.mp hc with ⟨a, ha, hra⟩
        by_cases h : (a.id == cid) = true
        · rw [if_pos h] at hra
          rw [← hra]
          exact ⟨rfl, rfl⟩
        · rw [if_neg h] at hra
          subst hra
          exact absurd (by simp [hcid]) h

/-- C5 amended witness: the success side applied to the concrete
zero-capacity fixture. -/
theorem c5_assign_least_loaded_witness :
    ∃ gp, gp ∈ stFixAssign.providers ∧ eligibleGP stFixAssign gp = true ∧
      (nonTerminalLoad stFixAssign gp.id = 0 ∨
        nonTerminalLoad stFixAssign gp.id < gp.max_concurrent_sessions) ∧
      (0 < nonTerminalLoad stFixAssign gp.id →
        nonTerminalLoad stFixAssign gp.id < gp.max_concurrent_sessions) ∧
      (∀ q ∈ stFixAssign.providers, eligibleGP stFixAssign q = true →
        nonTerminalLoad stFixAssign gp.id ≤ nonTerminalLoad stFixAssign q.id) ∧
      ∀ c ∈ stFixMatched.consultations, c.id = "e1" →
        c.provider_id = some gp.id ∧ c.status = "matched" :=
  (c5_assign_least_loaded "e1" stFixAssign).2 stFixMatched (by rfl)

/-- C1 counterexample: with two ready claims on the same prescription,
pharmacy A fulfills and then pharmacy B fulfills; the second call also
succeeds and changes state — both claims end dispensed and the
prescription ends recording pharmacy B — instead of failing with
AlreadyUsed and leaving the state unchanged. -/
theorem c1_counterexample :
    ((fulfillPrescription "rx1" "phB" ["itemB"] 30
        (fulfillPrescription "rx1" "phA" ["itemA"] 20 stFixClaims)).pharmacy_claims.map
      (fun c => (c.pharmacy_id, c.status)) =
      [("phA", "dispensed"), ("phB", "dispensed")]) ∧
    ((fulfillPrescription "rx1" "phA" ["itemA"] 20 stFixClaims).prescriptions.map
      (fun p => (p.status, p.fulfilling_pharmacy_id)) =
      [("fulfilled", some "phA")]) ∧
    ((fulfillPrescription "rx1" "phB" ["itemB"] 30
        (fulfillPrescription "rx1" "phA" ["itemA"] 20 stFixClaims)).prescriptions.map
      (fun p => (p.status, p.fulfilling_pharmacy_id)) =
      [("fulfilled", some "phB")]) :=
  ⟨rfl, rfl, rfl⟩

/-- Auxiliary: fulfillPrescription maps each existing claim row to its
updated image, so the image of any claim row is in the post state. -/
theorem fulfill_claim_mem (pid ph : String) (di : List String) (t : Nat)
    (st : DBState) (c : PharmacyClaim) (hc : c ∈ st.pharmacy_claims) :
    (if c.prescription_id == pid && c.pharmacy_id == ph then
      { c with status := "dispensed", dispensed_items := some di }
    else c) ∈ (fulfillPrescription pid ph di t st).pharmacy_claims := by
  unfold fulfillPrescription
  exact List.mem_map_of_mem _ hc

/-- C1 amended: fulfillPrescription is unconditional: no fulfill call
fails with AlreadyUsed; every call marks the claim matching its pharmacy
dispensed and the prescription fulfilled, so a second fulfill by a
different pharmacy also succeeds and overwrites — after two calls both
claims are dispensed and the prescription records the later pharmacy.
An already-used rejection exists only on the redeem path
(verifyPrescriptionQR). -/
theorem c1_fulfill_unconditional (pid phA phB : String) (diA diB : List String)
    (t1 t2 : Nat) (st : DBState) (cA cB : PharmacyClaim)
    (hA : cA ∈ st.pharmacy_claims) (hA1 : cA.prescription_id = pid)
    (hA2 : cA.pharmacy_id = phA)
    (hB : cB ∈ st.pharmacy_claims) (hB1 : cB.prescription_id = pid)
    (hB2 : cB.pharmacy_id = phB) (hne : phA ≠ phB) :
    ({ cA with status := "dispensed", dispensed_items := some diA } : PharmacyClaim) ∈
      (fulfillPrescription pid phB diB t2
        (fulfillPrescription pid phA diA t1 st)).pharmacy_claims ∧
    ({ cB with status := "dispensed", dispensed_items := some diB } : PharmacyClaim) ∈
      (fulfillPrescription pid phB diB t2
        (fulfillPrescription pid phA diA t1 st)).pharmacy_claims ∧
    ∀ p ∈ (fulfillPrescription pid phB diB t2
        (fulfillPrescription pid phA diA t1 st)).prescriptions,
      p.id = pid → p.status = "fulfilled" ∧ p.fulfilling_pharmacy_id = some phB := by
  have hApid : (cA.prescription_id == pid) = true := by simp [hA1]
  have hApha : (cA.pharmacy_id == phA) = true := by simp [hA2]
  have hAnotB : (cA.pharmacy_id == phB) = false := by
    simp only [hA2, beq_eq_false_iff_ne, ne_eq]
    exact hne
  have hBpid : (cB.prescription_id == pid) = true := by simp [hB1]
  have hBphb : (cB.pharmacy_id == phB) = true := by simp [hB2]
  have hBnotA : (cB.pharmacy_id == phA) = false := by
    simp only [hB2, beq_eq_false_iff_ne, ne_eq]
    exact fun h => hne h.symm
  refine ⟨?_, ?_, ?_⟩
  · have h1 := fulfill_claim_mem pid phA diA t1 st cA hA
    rw [if_pos (by simp [hApid, hApha])] at h1
    have h2 := fulfill_claim_mem pid phB diB t2 _ _ h1
    rw [if_neg (by simp [hAnotB])] at h2
    exact h2
  · have h1 := fulfill_claim_mem pid phA diA t1 st cB hB
    rw [if_neg (by simp [hBnotA])] at h1
    have h2 := fulfill_claim_mem pid phB diB t2 _ _ h1
    rw [if_pos (by simp [hBpid, hBphb])] at h2
    exact h2
  · intro p hp hpid
    rcases List.mem_map.mp hp with ⟨a, ha, hra⟩
    by_cases h : (a.id == pid) = true
    · rw [if_pos h] at hra
      rw [← hra]
      exact ⟨rfl, rfl⟩
    · rw [if_neg h] at hra
      subst hra
      exact absurd (by simp [hpid]) h

/-- C1 amended witness: the unconditional-fulfill statement applied to
the concrete two-claim fixture. -/
theorem c1_fulfill_unconditional_witness :
    (({ (⟨"rx1", "phA", "ready", none⟩ : PharmacyClaim) with
        status := "dispensed", dispensed_items := some ["itemA"] } : PharmacyClaim) ∈
      (fulfillPrescription "rx1" "phB" ["itemB"] 30
        (fulfillPrescription "rx1" "phA" ["itemA"] 20 stFixClaims)).pharmacy_claims) ∧
    (({ (⟨"rx1", "phB", "ready", none⟩ : PharmacyClaim) with
        status := "dispensed", dispensed_items := some ["itemB"] } : PharmacyClaim) ∈
      (fulfillPrescription "rx1" "phB" ["itemB"] 30
        (fulfillPrescription "rx1" "phA" ["itemA"] 20 stFixClaims)).pharmacy_claims) ∧
    ∀ p ∈ (fulfillPrescription "rx1" "phB" ["itemB"] 30
        (fulfillPrescription "rx1" "phA" ["itemA"] 20 stFixClaims)).prescriptions,
      p.id = "rx1" → p.status = "fulfilled" ∧ p.fulfilling_pharmacy_id = some "phB" :=
  c1_fulfill_unconditional "rx1" "phA" "phB" ["itemA"] ["itemB"] 20 30 stFixClaims
    ⟨"rx1", "phA", "ready", none⟩ ⟨"rx1", "phB", "ready", none⟩
    (by decide) rfl rfl (by decide) rfl rfl (by decide)

/-- C7 counterexample: redeeming the concrete prescription whose
redemption flag is cleared returns the reason pdf_downloaded, not the
specified reason disabled, and creates no claim (the state is
unchanged). -/
theorem c7_counterexample :
    (stFixDisabled.prescriptions.map (fun p => p.qr_enabled) = [false]) ∧
    (verifyPrescriptionQR "tok1" "phA" 5 stFixDisabled).2 = .invalid "pdf_downloaded" ∧
    (verifyPrescriptionQR "tok1" "phA" 5 stFixDisabled).2 ≠ .invalid "disabled" ∧
    (verifyPrescriptionQR "tok1" "phA" 5 stFixDisabled).1 = stFixDisabled :=
  ⟨rfl, rfl, by decide, rfl⟩

/-- C7 amended: once the redemption flag of a prescription is false —
cleared by downloadPrescriptionPDF; a successful dispense does not clear
it — every subsequent redeem call with its token returns Invalid with
reason pdf_downloaded, a reason outside the four specified, and creates
no RedemptionClaim (the state is unchanged). -/
theorem c7_disabled_rejected (qr ph : String) (now : Nat) (st : DBState)
    (p : Prescription) (u : UserRow)
    (hfind : st.prescriptions.find? (fun x => x.qr_code_data == qr) = some p)
    (hu : st.users.find? (fun x => x.id == p.patient_id) = some u)
    (hdis : p.qr_enabled = false) :
    (verifyPrescriptionQR qr ph now st = (st, .invalid "pdf_downloaded")) ∧
    (("pdf_downloaded" : String) ∉
      (["invalid_code", "disabled", "expired", "already_used"] : List String)) ∧
    (∀ pid uid url : String, ∀ t : Nat, ∀ st3 st4 : DBState,
      downloadPrescriptionPDF pid uid url t st3 = .ok st4 →
      ∀ q ∈ st4.prescriptions, q.id = pid → q.qr_enabled = false) := by
  have hlook : lookupRx st qr = some p := by
    unfold lookupRx
    rw [hfind]
    simp only [hu]
  refine ⟨?_, by decide, ?_⟩
  · unfold verifyPrescriptionQR
    rw [hlook]
    simp [hdis]
  · intro pid uid url t st3 st4 hok q hq hqid
    unfold downloadPrescriptionPDF at hok
    cases hfd : st3.prescriptions.find? (fun x => x.id == pid && x.patient_id == uid) with
    | none =>
      rw [hfd] at hok
      exact absurd hok (by simp)
    | some p1 =>
      rw [hfd] at hok
      simp only [] at hok
      cases hpr : st3.providers.find? (fun pr => pr.id == p1.prescribing_provider_id) with
      | none =>
        simp only [hpr] at hok
        exact absurd hok (by simp)
      | some pr =>
        simp only [hpr, Except.ok.injEq] at hok
        subst hok
        rcases List.mem_map.mp hq with ⟨a, ha, hra⟩
        by_cases h : (a.id == pid) = true
        · rw [if_pos h] at hra
          rw [← hra]
        · rw [if_neg h] at hra
          subst hra
          exact absurd (by simp [hqid]) h

/-- C7 amended witness: the disabled-token statement applied to the
concrete disabled fixture. -/
theorem c7_disabled_rejected_witness :
    (verifyPrescriptionQR "tok1" "phA" 5 stFixDisabled =
      (stFixDisabled, .invalid "pdf_downloaded")) ∧
    (("pdf_downloaded" : String) ∉
      (["invalid_code", "disabled", "expired", "already_used"] : List String)) ∧
    (∀ pid uid url : String, ∀ t : Nat, ∀ st3 st4 : DBState,
      downloadPrescriptionPDF pid uid url t st3 = .ok st4 →
      ∀ q ∈ st4.prescriptions, q.id = pid → q.qr_enabled = false) :=
  c7_disabled_rejected "tok1" "phA" 5 stFixDisabled
    { rxFix with qr_enabled := false } patFix (by decide) (by decide) rfl

/-- C8 counterexample: issuing a prescription against the concrete
consultation still in the requested state succeeds and persists the
prescription, instead of failing with NotFound. -/
theorem c8_counterexample :
    (stFixAssign.consultations.map (fun c => c.status) = ["requested"]) ∧
    (createPrescription "e1" "g0" [medFix] "rxN" "tokN" 100 stFixAssign).toOption.map
      (fun r => (r.1.prescriptions.map (fun p => p.id), r.2.id, r.2.status)) =
      some (["rxN"], "rxN", "active") :=
  ⟨rfl, rfl⟩

/-- C8 amended: createPrescription checks only that the consultation row
exists: it fails with the 404 not-found error exactly when there is no
consultation with the given id, and otherwise succeeds and persists the
prescription header and its line items whatever the consultation status —
including requested, matched and cancelled. -/
theorem c8_issue_checks_existence_only (cid pvid : String)
    (meds : List MedicationInput) (nid qr : String) (now : Nat) (st : DBState) :
    (st.consultations.find? (fun c => c.id == cid) = none →
      createPrescription cid pvid meds nid qr now st =
        .error ⟨"Consultation not found", 404⟩) ∧
    (∀ c, st.consultations.find? (fun c2 => c2.id == cid) = some c →
      ∃ st2 rx, createPrescription cid pvid meds nid qr now st = .ok (st2, rx) ∧
        rx.id = nid ∧ rx.status = "active" ∧ rx ∈ st2.prescriptions ∧
        st2.prescription_items.length =
          st.prescription_items.length + meds.length) := by
  constructor
  · intro hnone
    unfold createPrescription
    rw [hnone]
  · intro c hfind
    unfold createPrescription
    rw [hfind]
    refine ⟨_, _, rfl, rfl, rfl, ?_, ?_⟩
    · exact List.mem_append_right _ (List.mem_singleton_self _)
    · simp

/-- C8 amended witness: both sides applied to the concrete
requested-state fixture (and a missing id for the failure side). -/
theorem c8_issue_checks_existence_only_witness :
    (createPrescription "missing" "g0" [medFix] "rxN" "tokN" 100 stFixAssign =
      .error ⟨"Consultation not found", 404⟩) ∧
    (∃ st2 rx, createPrescription "e1" "g0" [medFix] "rxN" "tokN" 100 stFixAssign =
        .ok (st2, rx) ∧
      rx.id = "rxN" ∧ rx.status = "active" ∧ rx ∈ st2.prescriptions ∧
      st2.prescription_items.length = stFixAssign.prescription_items.length + 1) :=
  ⟨(c8_issue_checks_existence_only "missing" "g0" [medFix] "rxN" "tokN" 100
      stFixAssign).1 (by decide),
   (c8_issue_checks_existence_only "e1" "g0" [medFix] "rxN" "tokN" 100
      stFixAssign).2 consRequested (by decide)⟩

/-- Auxiliary: when the joined token lookup returns a prescription, it is
the one found by token in the prescriptions table. -/
theorem lookupRx_eq_some (st : DBState) (qr : String) (p : Prescription)
    (h : lookupRx st qr = some p) :
    st.prescriptions.find? (fun x => x.qr_code_data == qr) = some p := by
  unfold lookupRx at h
  cases hp : st.prescriptions.find? (fun x => x.qr_code_data == qr) with
  | none =>
    rw [hp] at h
    exact Option.noConfusion h
  | some p0 =>
    rw [hp] at h
    cases hu : st.users.find? (fun u => u.id == p0.patient_id) with
    | none =>
      simp only [hu] at h
      exact Option.noConfusion h
    | some u =>
      simp only [hu, Option.some.injEq] at h
      rw [h]

/-- Auxiliary: the joined token lookup ignores every user field except the
id: rewriting the users table with any id-preserving function leaves the
lookup unchanged. -/
theorem lookupRx_users_map (f : UserRow → UserRow) (hid : ∀ u, (f u).id = u.id)
    (st : DBState) (qr : String) :
    lookupRx { st with users := st.users.map f } qr = lookupRx st qr := by
  unfold lookupRx
  dsimp only
  cases hp : st.prescriptions.find? (fun p => p.qr_code_data == qr) with
  | none => rfl
  | some p =>
    show (match (st.users.map f).find? (fun u => u.id == p.patient_id) with
          | none => none
          | some _patient => some p) =
        (match st.users.find? (fun u => u.id == p.patient_id) with
          | none => none
          | some _patient => some p)
    rw [find?_map_pred f _ _ (fun u => by rw [hid u])]
    cases hu : st.users.find? (fun u => u.id == p.patient_id) with
    | none => rfl
    | some u => rfl

/-- C9: every successful redeem returns the masked view: it is built only
from the prescription row and the projected line items — the clinician
appears only as the token Dr. plus the first 8 characters of the provider
id, and the view never depends on any patient user data (rewriting every
user row in any way that keeps ids leaves the result unchanged); provider
ids sharing their 8-character prefix are indistinguishable in the view,
so the token is not reversible. -/
theorem c9_masked_view :
    (∀ qr ph : String, ∀ now : Nat, ∀ st st2 : DBState,
      ∀ view : PharmacyPrescriptionView,
      verifyPrescriptionQR qr ph now st = (st2, .valid view) →
      ∃ p, st.prescriptions.find? (fun x => x.qr_code_data == qr) = some p ∧
        view = ⟨p.id, maskedItems st p.id, doctorToken p.prescribing_provider_id,
                p.created_at⟩) ∧
    (∀ f : UserRow → UserRow, (∀ u, (f u).id = u.id) →
      ∀ qr ph : String, ∀ now : Nat, ∀ st : DBState,
        (verifyPrescriptionQR qr ph now { st with users := st.users.map f }).2 =
          (verifyPrescriptionQR qr ph now st).2) ∧
    (∀ pidA pidB : String, pidA.take 8 = pidB.take 8 →
      doctorToken pidA = doctorToken pidB) := by
  refine ⟨?_, ?_, ?_⟩
  · intro qr ph now st st2 view h
    unfold verifyPrescriptionQR at h
    cases hp : lookupRx st qr with
    | none =>
      rw [hp] at h
      exact absurd (congrArg Prod.snd h) (by simp)
    | some p =>
      rw [hp] at h
      simp only [] at h
      split at h
      · exact absurd (congrArg Prod.snd h) (by simp)
      · split at h
        · exact absurd (congrArg Prod.snd h) (by simp)
        · split at h
          · exact absurd (congrArg Prod.snd h) (by simp)
          · refine ⟨p, lookupRx_eq_some st qr p hp, ?_⟩
            have h2 : VerifyQRResult.valid
                ⟨p.id, maskedItems st p.id, doctorToken p.prescribing_provider_id,
                 p.created_at⟩ = VerifyQRResult.valid view := congrArg Prod.snd h
            injection h2 with h3
            exact h3.symm
  · intro f hid qr ph now st
    unfold verifyPrescriptionQR
    rw [lookupRx_users_map f hid st qr]
    cases hp : lookupRx st qr with
    | none => rfl
    | some p =>
      by_cases he : p.qr_enabled
      · by_cases hex : p.expires_at < now
        · simp [he, hex]
        · by_cases hf : (p.status == "fulfilled") = true
          · simp [he, hex, hf]
          · simp [he, hex, hf, maskedItems]
      · simp [he]
  · intro pidA pidB hpre
    unfold doctorToken
    rw [hpre]

/-- C9 witness: the structural statement applied to the concrete active
prescription, the noninterference statement applied to a rewrite that
blanks every phone number and name, and the prefix-collision statement at
two distinct provider ids. -/
theorem c9_masked_view_witness :
    (∃ p, stFixRx.prescriptions.find? (fun x => x.qr_code_data == "tok1") = some p ∧
      (⟨"rx1", maskedItems stFixRx "rx1", "Dr. gpid1234", 1⟩ : PharmacyPrescriptionView) =
        ⟨p.id, maskedItems stFixRx p.id, doctorToken p.prescribing_provider_id,
         p.created_at⟩) ∧
    ((verifyPrescriptionQR "tok1" "phA" 5
        { stFixRx with users := stFixRx.users.map (fun u =>
            { u with phone_number := "", full_name := none }) }).2 =
      (verifyPrescriptionQR "tok1" "phA" 5 stFixRx).2) ∧
    doctorToken "gpid1234AAAA" = doctorToken "gpid1234BBBB" := by
  refine ⟨?_, ?_, ?_⟩
  · have h := c9_masked_view.1 "tok1" "phA" 5 stFixRx
      (verifyPrescriptionQR "tok1" "phA" 5 stFixRx).1
      ⟨"rx1", maskedItems stFixRx "rx1", "Dr. gpid1234", 1⟩ (by decide)
    exact h
  · exact c9_masked_view.2.1
      (fun u => { u with phone_number := "", full_name := none })
      (fun u => rfl) "tok1" "phA" 5 stFixRx
  · exact c9_masked_view.2.2 "gpid1234AAAA" "gpid1234BBBB" rfl

end Mediconnect
